import Mathlib

/-!
Verification of the natural-language specification of the git workflow
script in src/git_setup.py against a shallow embedding of its code.

The script is effectful: it spawns external commands, prompts the user,
and touches a scratch file. The embedding makes each of those effects an
explicit input: an external command execution is a record of its exit
code and captured output streams, user answers are string parameters,
and the commit flow returns a record of the externally visible actions
it performed (which files it staged, whether it invoked git commit and
with what message, whether it deleted the scratch file). Console
printing, which carries no data any caller inspects, is not modelled.

Python string primitives used by the script (strip, lower, split on a
one-character separator, slicing, int parsing, substring membership,
startswith on the one-character comment marker, readlines) are modelled
by structurally recursive functions on the character list of the string,
so that every definition evaluates inside the kernel.
-/

/-- The observable outcome of executing one external command line:
its exit status and the two captured streams. -/
structure CmdResult where
  exitCode : Nat
  stdout : String
  stderr : String
deriving DecidableEq

/-- run_command, src/git_setup.py lines 25-46. subprocess.run with
check=True raises CalledProcessError exactly on a non-zero exit status;
the try/except converts that to the (False, stderr) pair, and the
zero-exit path returns (True, stdout). Printing is not modelled. -/
def run_command (r : CmdResult) : Bool × String :=
  if r.exitCode = 0 then (true, r.stdout) else (false, r.stderr)

/-- Drop leading whitespace characters from a character list. -/
def dropLeadingWs : List Char → List Char
  | [] => []
  | c :: t => if c.isWhitespace then dropLeadingWs t else c :: t

/-- Python str.strip() with no argument: remove leading and trailing
whitespace. (Python also strips a few exotic unicode whitespace
characters; the script only ever meets ASCII whitespace.) -/
def pyStrip (s : String) : String :=
  String.mk (dropLeadingWs (dropLeadingWs s.data.reverse).reverse)

/-- Python str.lower() on the ASCII letters the script handles. -/
def pyLower (s : String) : String :=
  String.mk (s.data.map Char.toLower)

/-- Python s[:n] character slicing. -/
def pyTake (s : String) (n : Nat) : String :=
  String.mk (s.data.take n)

/-- Python s[n:] character slicing. -/
def pyDrop (s : String) (n : Nat) : String :=
  String.mk (s.data.drop n)

/-- Helper for pySplit: accumulate the current field (reversed) while
scanning for the separator character. -/
def splitOnCharAux (sep : Char) (acc : List Char) : List Char → List String
  | [] => [String.mk acc.reverse]
  | c :: t =>
    if c = sep then String.mk acc.reverse :: splitOnCharAux sep [] t
    else splitOnCharAux sep (c :: acc) t

/-- Python str.split(sep) for a one-character separator, the only form
the script uses (on a newline and on a comma). -/
def pySplit (s : String) (sep : Char) : List String :=
  splitOnCharAux sep [] s.data

/-- get_git_status, lines 289-304: classify one porcelain status line
into the (modified, untracked, staged) accumulator. The first two
characters are the status code, the remainder after character 3 the
path; empty lines are skipped and unknown codes are dropped. -/
def classify_line (acc : List String × List String × List String)
    (line : String) : List String × List String × List String :=
  if line = "" then acc
  else
    if pyTake line 2 = "??" then (acc.1, acc.2.1 ++ [pyDrop line 3], acc.2.2)
    else if pyTake line 2 = " M" then (acc.1 ++ [pyDrop line 3], acc.2.1, acc.2.2)
    else if pyTake line 2 = "M " ∨ pyTake line 2 = "A " then
      (acc.1, acc.2.1, acc.2.2 ++ [pyDrop line 3])
    else if pyTake line 2 = "MM" then
      (acc.1 ++ [pyDrop line 3], acc.2.1, acc.2.2 ++ [pyDrop line 3])
    else acc

/-- The classification loop of get_git_status over the split lines. -/
def status_of_lines (lines : List String) :
    List String × List String × List String :=
  lines.foldl classify_line ([], [], [])

/-- get_git_status, lines 277-306: run the porcelain status command;
on failure return three empty lists, on success classify each line of
the stripped output split on newlines. -/
def get_git_status (r : CmdResult) :
    List String × List String × List String :=
  if (run_command r).1 = false then ([], [], [])
  else status_of_lines (pySplit (pyStrip (run_command r).2) '\n')

/-- manage_existing_repository, line 597: the emptiness test that makes
the script report a clean working directory. -/
def working_tree_clean (t : List String × List String × List String) : Bool :=
  t.1.isEmpty && t.2.1.isEmpty && t.2.2.isEmpty

/-- get_current_branch, lines 309-312. -/
def get_current_branch (r : CmdResult) : String :=
  if (run_command r).1 then pyStrip (run_command r).2 else "unknown"

/-- has_remote, lines 460-463: the remote listing command succeeded and
its stripped output is non-empty. -/
def has_remote (r : CmdResult) : Bool :=
  (run_command r).1 && decide (pyStrip (run_command r).2 ≠ "")

/-- Python int() on an already-stripped token: an optional sign followed
by one or more decimal digits. (CPython additionally allows underscore
digit grouping, which no input path of the script treats specially.) -/
def pyInt (s : String) : Option Int :=
  let core : List Char → Option Nat := fun ds =>
    if ds = [] then none
    else if ds.all Char.isDigit then
      some (ds.foldl (fun a c => a * 10 + (c.toNat - 48)) 0)
    else none
  match s.data with
  | [] => none
  | c :: rest =>
    if c = '-' then (core rest).map (fun n => -(n : Int))
    else if c = '+' then (core rest).map (fun n => (n : Int))
    else (core (c :: rest)).map (fun n => (n : Int))

/-- choose_files_to_add, line 408: the comma-separated tokens of the
selection string, each stripped, with empty tokens skipped. -/
def selection_tokens (choice : String) : List String :=
  ((pySplit choice ',').map pyStrip).filter (fun t => t ≠ "")

/-- choose_files_to_add, line 408: the list comprehension
converting each token with int and subtracting 1. A single token that
int rejects raises ValueError, so the whole comprehension fails: the
result is none, not a partial list. -/
def parse_selection (choice : String) : Option (List Int) :=
  (selection_tokens choice).mapM (fun t => (pyInt t).map (fun n => n - 1))

/-- choose_files_to_add, line 409: keep the files at the in-range
indices, silently dropping out-of-range ones. -/
def select_by_indices (all_files : List String) (idxs : List Int) :
    List String :=
  idxs.filterMap (fun i =>
    if 0 ≤ i ∧ i < (all_files.length : Int) then all_files.get? i.toNat
    else none)

/-- choose_files_to_add, lines 376-412, with the status query results
and the prompt answer as inputs. The staged list returned by
get_git_status is unused by the function body. The raw answer is
stripped and lowered (line 400); the q token cancels, the a token
selects all of modified then untracked, and anything else is parsed as
comma-separated indices, a ValueError yielding the empty selection. -/
def choose_files_to_add (modified untracked : List String)
    (raw_choice : String) : List String :=
  if modified ++ untracked = [] then []
  else if pyLower (pyStrip raw_choice) = "q" then []
  else if pyLower (pyStrip raw_choice) = "a" then modified ++ untracked
  else
    match parse_selection (pyLower (pyStrip raw_choice)) with
    | none => []
    | some idxs => select_by_indices (modified ++ untracked) idxs

/-- generate_commit_message_template, lines 349-361: the literal
template written to the scratch file. -/
def generate_commit_message_template : String :=
  "# Write a concise and meaningful commit message (50 chars or less)\n# \n# More detailed explanation, if necessary. Keep line length to 72 chars.\n# Explain what and why, not how.\n#\n# - Bullet points are okay\n#\n# Related issue: (if applicable)\n#\n# Co-authored-by: Name <email> (if applicable)\n"

/-- Helper for readlines: accumulate the current line (reversed) and cut
after each newline character. -/
def readlinesAux (acc : List Char) : List Char → List String
  | [] => if acc = [] then [] else [String.mk acc.reverse]
  | c :: rest =>
    if c = '\n' then
      String.mk (acc.reverse ++ ['\n']) :: readlinesAux [] rest
    else readlinesAux (c :: acc) rest

/-- Python file.readlines() on the scratch file content: the lines of
the text, each keeping its trailing newline character. -/
def readlines (s : String) : List String :=
  readlinesAux [] s.data

/-- Python line.startswith on the one-character comment marker used at
line 446: the first character of the line is the hash mark. -/
def starts_with_hash (l : String) : Bool :=
  match l.data with
  | [] => false
  | c :: _ => c = '#'

/-- commit_changes, lines 446-448: discard every line beginning with
the comment marker, join the rest, and strip whitespace. -/
def strip_comment_lines (lines : List String) : String :=
  pyStrip ((lines.filter (fun l => !(starts_with_hash l))).foldl
    (fun a l => a ++ l) "")

/-- The external inputs the commit flow depends on: whether staging each
path succeeds, the scratch file content after the editor ran (as
readlines would deliver it), and whether git commit succeeds. -/
structure CommitEnv where
  addOk : String → Bool
  editorLines : List String
  commitOk : Bool

/-- The externally visible outcome of commit_changes: its returned
boolean, the paths it invoked git add on in order, the commit message
it passed to git commit if it invoked it, and whether it deleted the
scratch file. -/
structure CommitOutcome where
  result : Bool
  staged : List String
  commit : Option String
  scratchDeleted : Bool
deriving DecidableEq

/-- commit_changes, lines 425-429: stage each file in order, stopping
at the first failure. Returns the paths git add was invoked on and
whether all of them succeeded. -/
def stage_files (addOk : String → Bool) : List String → List String × Bool
  | [] => ([], true)
  | f :: fs =>
    if addOk f then
      (f :: (stage_files addOk fs).1, (stage_files addOk fs).2)
    else ([f], false)

/-- commit_changes, lines 415-457, for an explicitly supplied file
list: an empty list returns failure immediately; a staging failure
returns failure with no editor run, no commit and no scratch file ever
written; otherwise the stripped editor result either aborts (empty
message: scratch file deleted, no commit) or is passed to git commit,
the scratch file being deleted either way. -/
def commit_changes (env : CommitEnv) (files : List String) : CommitOutcome :=
  if files = [] then ⟨false, [], none, false⟩
  else if (stage_files env.addOk files).2 = false then
    ⟨false, (stage_files env.addOk files).1, none, false⟩
  else if strip_comment_lines env.editorLines = "" then
    ⟨false, (stage_files env.addOk files).1, none, true⟩
  else
    ⟨env.commitOk, (stage_files env.addOk files).1,
     some (strip_comment_lines env.editorLines), true⟩

/-- Does the needle occur at the head of the haystack? -/
def leadingMatch : List Char → List Char → Bool
  | [], _ => true
  | _ :: _, [] => false
  | a :: as, b :: bs => a = b && leadingMatch as bs

/-- Helper for strContains: scan the haystack for an occurrence. -/
def containsSubAux (needle : List Char) : List Char → Bool
  | [] => leadingMatch needle []
  | c :: t => leadingMatch needle (c :: t) || containsSubAux needle t

/-- Python substring membership pat in s, used at line 536. -/
def strContains (s pat : String) : Bool :=
  containsSubAux pat.data s.data

/-- Which push path push_changes took. -/
inductive PushAction where
  | cancelled
  | noRemote
  | plainPush
  | upstreamPush
deriving DecidableEq

/-- The external inputs push_changes depends on: the HEAD query result,
the answer to the direct-push confirmation prompt, the remote listing
result, the ls-remote query result, and the outcomes of the two
possible push commands. -/
structure PushEnv where
  branchCmd : CmdResult
  confirmAnswer : String
  remoteCmd : CmdResult
  lsRemoteCmd : CmdResult
  plainPushOk : Bool
  upstreamPushOk : Bool

/-- push_changes, lines 516-549: on main or master an answer other than
y cancels; then with a remote configured the branch name is searched
for as a substring of the ls-remote output (stdout on success, stderr
on failure) to pick a plain push or an upstream-setting push; with no
remote the function reports and fails. -/
def push_changes (env : PushEnv) : PushAction × Bool :=
  if (get_current_branch env.branchCmd = "main" ∨
      get_current_branch env.branchCmd = "master") ∧
      pyLower env.confirmAnswer ≠ "y" then
    (PushAction.cancelled, false)
  else if has_remote env.remoteCmd then
    if strContains (run_command env.lsRemoteCmd).2
        (get_current_branch env.branchCmd) then
      (PushAction.plainPush, env.plainPushOk)
    else (PushAction.upstreamPush, env.upstreamPushOk)
  else (PushAction.noRemote, false)

theorem status_of_lines_append (ls : List String) (l : String) :
    status_of_lines (ls ++ [l]) = classify_line (status_of_lines ls) l := by
  simp [status_of_lines, List.foldl_append]

theorem stage_files_all_ok (addOk : String → Bool) (files : List String)
    (h : ∀ g ∈ files, addOk g = true) :
    stage_files addOk files = (files, true) := by
  induction files with
  | nil => rfl
  | cons f fs ih =>
    have hf : addOk f = true := h f (List.mem_cons_self f fs)
    have ih2 := ih (fun g hg => h g (List.mem_cons_of_mem f hg))
    simp [stage_files, hf, ih2]

theorem stage_files_fst_of_ok (addOk : String → Bool) (files : List String)
    (h : (stage_files addOk files).2 = true) :
    (stage_files addOk files).1 = files := by
  induction files with
  | nil => rfl
  | cons f fs ih =>
    by_cases ha : addOk f = true
    · simp [stage_files, ha] at h ⊢
      exact ih h
    · simp [stage_files, ha] at h

theorem stage_files_stops_at_failure (addOk : String → Bool)
    (fs1 : List String) (f : String) (fs2 : List String)
    (hall : ∀ g ∈ fs1, addOk g = true) (hf : addOk f = false) :
    stage_files addOk (fs1 ++ f :: fs2) = (fs1 ++ [f], false) := by
  induction fs1 with
  | nil => simp [stage_files, hf]
  | cons a t ih =>
    have ha : addOk a = true := hall a (List.mem_cons_self a t)
    have ih2 := ih (fun g hg => hall g (List.mem_cons_of_mem a hg))
    simp [stage_files, ha, ih2]

theorem filterMap_ite_guard {α β : Type} (p : α → Prop) [DecidablePred p]
    (f : α → Option β) (l : List α) :
    l.filterMap (fun a => if p a then f a else none) =
      (l.filter (fun a => decide (p a))).filterMap f := by
  induction l with
  | nil => rfl
  | cons a t ih =>
    by_cases h : p a
    · simp [List.filterMap_cons, List.filter_cons, h, ih]
    · simp [List.filterMap_cons, List.filter_cons, h, ih]

/-- C1: run_command returns a pair whose text is the captured standard
output when the command exits with status zero and the captured standard
error otherwise, and whose success flag is true exactly when the exit
status is zero, non-zero exit status being the sole failure signal. The
embedding is a total function of the command outcome: the only exception
the source can see from the checked subprocess call, CalledProcessError,
is the non-zero-exit branch, which is converted to the (false, stderr)
pair instead of propagating. -/
theorem C1_run_command_pair (r : CmdResult) :
    (r.exitCode = 0 → run_command r = (true, r.stdout)) ∧
    (r.exitCode ≠ 0 → run_command r = (false, r.stderr)) ∧
    ((run_command r).1 = true ↔ r.exitCode = 0) := by
  by_cases h : r.exitCode = 0 <;> simp [run_command, h]

theorem C1_witness :
    run_command ⟨0, "out", "err"⟩ = (true, "out") ∧
    run_command ⟨2, "out", "err"⟩ = (false, "err") :=
  ⟨(C1_run_command_pair ⟨0, "out", "err"⟩).1 rfl,
   (C1_run_command_pair ⟨2, "out", "err"⟩).2.1 (by decide)⟩

/-- C2: a porcelain status line whose two-character code is the double
question mark contributes its path (the remainder after the fixed
offset) to the untracked list only, leaving the modified and staged
lists of the classification unchanged; and on a zero-exit status query
get_git_status is exactly that classification of the stripped output
split on newlines. -/
theorem C2_untracked_classification (ls : List String) (l : String)
    (h : pyTake l 2 = "??") :
    status_of_lines (ls ++ [l]) =
      ((status_of_lines ls).1,
       (status_of_lines ls).2.1 ++ [pyDrop l 3],
       (status_of_lines ls).2.2) ∧
    ∀ r : CmdResult, r.exitCode = 0 →
      get_git_status r = status_of_lines (pySplit (pyStrip r.stdout) '\n') := by
  constructor
  · have hne : l ≠ "" := by
      intro he
      rw [he] at h
      exact absurd h (by decide)
    rw [status_of_lines_append]
    simp [classify_line, hne, h]
  · intro r hr
    simp [get_git_status, run_command, hr]

theorem C2_witness :
    status_of_lines (["XY odd"] ++ ["?? foo.py"]) =
      ((status_of_lines ["XY odd"]).1,
       (status_of_lines ["XY odd"]).2.1 ++ [pyDrop "?? foo.py" 3],
       (status_of_lines ["XY odd"]).2.2) ∧
    get_git_status ⟨0, "?? foo.py", ""⟩ =
      status_of_lines (pySplit (pyStrip "?? foo.py") '\n') :=
  ⟨(C2_untracked_classification ["XY odd"] "?? foo.py" (by decide)).1,
   (C2_untracked_classification ["XY odd"] "?? foo.py" (by decide)).2
     ⟨0, "?? foo.py", ""⟩ rfl⟩

/-- C3: a porcelain status line whose two-character code is MM
contributes its path to both the modified list and the staged list of
the classification, and not to the untracked list, which is unchanged. -/
theorem C3_both_modified_and_staged (ls : List String) (l : String)
    (h : pyTake l 2 = "MM") :
    status_of_lines (ls ++ [l]) =
      ((status_of_lines ls).1 ++ [pyDrop l 3],
       (status_of_lines ls).2.1,
       (status_of_lines ls).2.2 ++ [pyDrop l 3]) := by
  have hne : l ≠ "" := by
    intro he
    rw [he] at h
    exact absurd h (by decide)
  rw [status_of_lines_append]
  simp [classify_line, hne, h]

theorem C3_witness :
    status_of_lines (["?? a.py"] ++ ["MM b.py"]) =
      ((status_of_lines ["?? a.py"]).1 ++ [pyDrop "MM b.py" 3],
       (status_of_lines ["?? a.py"]).2.1,
       (status_of_lines ["?? a.py"]).2.2 ++ [pyDrop "MM b.py" 3]) :=
  C3_both_modified_and_staged ["?? a.py"] "MM b.py" (by decide)

/-- C10: when the porcelain status command exits non-zero,
get_git_status returns three empty lists, which is exactly the state
the clean-working-tree test of manage_existing_repository reports as a
clean working directory. -/
theorem C10_failed_status_is_clean (r : CmdResult)
    (h : r.exitCode ≠ 0) :
    get_git_status r = ([], [], []) ∧
    working_tree_clean (get_git_status r) = true := by
  have he : get_git_status r = ([], [], []) := by
    simp [get_git_status, run_command, h]
  exact ⟨he, by rw [he]; rfl⟩

theorem C10_witness :
    get_git_status ⟨128, "", "fatal: not a git repository"⟩ = ([], [], []) ∧
    working_tree_clean
      (get_git_status ⟨128, "", "fatal: not a git repository"⟩) = true :=
  C10_failed_status_is_clean ⟨128, "", "fatal: not a git repository"⟩
    (by decide)

/-- C9: when the HEAD query command exits non-zero, get_current_branch
returns the literal string unknown (neither raising, which the
embedding excludes by totality, nor returning the empty string), and
the push-to-main guardrail of push_changes does not trigger for that
branch value, whatever the confirmation answer is: push_changes never
takes the cancelled path. -/
theorem C9_unknown_branch_no_guardrail (env : PushEnv)
    (h : env.branchCmd.exitCode ≠ 0) :
    get_current_branch env.branchCmd = "unknown" ∧
    get_current_branch env.branchCmd ≠ "" ∧
    (push_changes env).1 ≠ PushAction.cancelled := by
  have hb : get_current_branch env.branchCmd = "unknown" := by
    simp [get_current_branch, run_command, h]
  refine ⟨hb, by rw [hb]; decide, ?_⟩
  unfold push_changes
  rw [hb]
  rw [if_neg (by rintro ⟨h1 | h1, -⟩ <;> exact absurd h1 (by decide))]
  by_cases hr : has_remote env.remoteCmd = true
  · rw [if_pos hr]
    by_cases hs :
        strContains (run_command env.lsRemoteCmd).2 "unknown" = true
    · rw [if_pos hs]
      simp
    · rw [if_neg (by simp [hs])]
      simp
  · rw [if_neg (by simp [hr])]
    simp

theorem C9_witness :
    get_current_branch ⟨128, "", "fatal"⟩ = "unknown" ∧
    get_current_branch ⟨128, "", "fatal"⟩ ≠ "" ∧
    (push_changes ⟨⟨128, "", "fatal"⟩, "n", ⟨0, "origin url", ""⟩,
      ⟨0, "", ""⟩, true, true⟩).1 ≠ PushAction.cancelled := by
  have h := C9_unknown_branch_no_guardrail
    ⟨⟨128, "", "fatal"⟩, "n", ⟨0, "origin url", ""⟩, ⟨0, "", ""⟩,
     true, true⟩ (by decide)
  exact h

/-- C8: once past the direct-push-to-main guardrail (the branch is not
main or master, or the user confirmed with y), push_changes with a
configured remote performs a plain push when the current branch name
occurs as a substring of the ls-remote query output and an
upstream-setting push otherwise, and with no configured remote it
returns failure without pushing. -/
theorem C8_push_path_choice (env : PushEnv)
    (h : ¬ ((get_current_branch env.branchCmd = "main" ∨
             get_current_branch env.branchCmd = "master") ∧
            pyLower env.confirmAnswer ≠ "y")) :
    (has_remote env.remoteCmd = true →
      (strContains (run_command env.lsRemoteCmd).2
          (get_current_branch env.branchCmd) = true →
        push_changes env = (PushAction.plainPush, env.plainPushOk)) ∧
      (strContains (run_command env.lsRemoteCmd).2
          (get_current_branch env.branchCmd) = false →
        push_changes env = (PushAction.upstreamPush, env.upstreamPushOk))) ∧
    (has_remote env.remoteCmd = false →
      push_changes env = (PushAction.noRemote, false)) := by
  unfold push_changes
  rw [if_neg h]
  constructor
  · intro hr
    rw [if_pos hr]
    constructor
    · intro hs
      rw [if_pos hs]
    · intro hs
      rw [if_neg (by simp [hs])]
  · intro hr
    rw [if_neg (by simp [hr])]

theorem C8_witness :
    push_changes ⟨⟨0, "dev\n", ""⟩, "x", ⟨0, "origin url", ""⟩,
      ⟨0, "refs/heads/dev", ""⟩, true, false⟩ =
      (PushAction.plainPush, true) ∧
    push_changes ⟨⟨0, "dev\n", ""⟩, "x", ⟨0, "origin url", ""⟩,
      ⟨0, "", ""⟩, true, false⟩ = (PushAction.upstreamPush, false) ∧
    push_changes ⟨⟨0, "dev\n", ""⟩, "x", ⟨0, "  ", ""⟩,
      ⟨0, "", ""⟩, true, false⟩ = (PushAction.noRemote, false) :=
  ⟨((C8_push_path_choice ⟨⟨0, "dev\n", ""⟩, "x", ⟨0, "origin url", ""⟩,
      ⟨0, "refs/heads/dev", ""⟩, true, false⟩ (by decide)).1
      (by decide)).1 (by decide),
   ((C8_push_path_choice ⟨⟨0, "dev\n", ""⟩, "x", ⟨0, "origin url", ""⟩,
      ⟨0, "", ""⟩, true, false⟩ (by decide)).1 (by decide)).2 (by decide),
   (C8_push_path_choice ⟨⟨0, "dev\n", ""⟩, "x", ⟨0, "  ", ""⟩,
      ⟨0, "", ""⟩, true, false⟩ (by decide)).2 (by decide)⟩

/-- C6: stripping every comment-marked line from the unedited commit
message template and trimming whitespace yields the empty string; and,
whenever staging succeeded, an editor result whose stripped trimmed
text is empty makes commit_changes delete the scratch file and return
failure without invoking git commit, while a non-empty result is passed
as the commit message, the scratch file being deleted whatever the
commit outcome is. -/
theorem C6_empty_message_aborts :
    strip_comment_lines (readlines generate_commit_message_template) = "" ∧
    ∀ (env : CommitEnv) (files : List String), files ≠ [] →
      (stage_files env.addOk files).2 = true →
      (strip_comment_lines env.editorLines = "" →
        commit_changes env files = ⟨false, files, none, true⟩) ∧
      (strip_comment_lines env.editorLines ≠ "" →
        commit_changes env files =
          ⟨env.commitOk, files, some (strip_comment_lines env.editorLines),
           true⟩) := by
  constructor
  · decide
  · intro env files hne hok
    have hfst := stage_files_fst_of_ok env.addOk files hok
    have hnotfail : ¬ ((stage_files env.addOk files).2 = false) := by
      simp [hok]
    constructor
    · intro hmsg
      unfold commit_changes
      rw [if_neg hne, if_neg hnotfail, if_pos hmsg, hfst]
    · intro hmsg
      unfold commit_changes
      rw [if_neg hne, if_neg hnotfail, if_neg hmsg, hfst]

theorem C6_witness :
    commit_changes
      ⟨fun g => decide (g ≠ ""), readlines generate_commit_message_template,
       true⟩ ["a.py"] = ⟨false, ["a.py"], none, true⟩ ∧
    commit_changes ⟨fun g => decide (g ≠ ""), ["fix: thing\n"], true⟩
      ["a.py"] = ⟨true, ["a.py"], some "fix: thing", true⟩ := by
  constructor
  · exact ((C6_empty_message_aborts.2
      ⟨fun g => decide (g ≠ ""), readlines generate_commit_message_template,
       true⟩ ["a.py"] (by decide) (by decide)).1 C6_empty_message_aborts.1)
  · have h := ((C6_empty_message_aborts.2
      ⟨fun g => decide (g ≠ ""), ["fix: thing\n"], true⟩ ["a.py"]
      (by decide) (by decide)).2 (by decide))
    rw [h]
    decide

/-- C7: with a non-empty selected file list, commit_changes invokes the
command runner to stage each selected path individually in list order
(when every staging succeeds the staged sequence is exactly the
selected list); and when staging some path fails it returns failure
immediately: the paths staged are exactly the successful prefix plus
the failing path, the remaining paths are never attempted, no commit is
made, and nothing is unstaged (the outcome records no action besides
the add invocations themselves, so the already-staged prefix stays
staged). -/
theorem C7_stage_each_no_rollback (env : CommitEnv) (files : List String)
    (h : files ≠ []) :
    ((∀ g ∈ files, env.addOk g = true) →
      (commit_changes env files).staged = files) ∧
    (∀ (fs1 : List String) (f : String) (fs2 : List String),
      files = fs1 ++ f :: fs2 →
      (∀ g ∈ fs1, env.addOk g = true) →
      env.addOk f = false →
      commit_changes env files = ⟨false, fs1 ++ [f], none, false⟩) := by
  constructor
  · intro hall
    have hs := stage_files_all_ok env.addOk files hall
    unfold commit_changes
    rw [if_neg h, hs]
    by_cases hm : strip_comment_lines env.editorLines = "" <;>
      simp [hm]
  · intro fs1 f fs2 hsplit hall hf
    have hs : stage_files env.addOk files = (fs1 ++ [f], false) := by
      rw [hsplit]
      exact stage_files_stops_at_failure env.addOk fs1 f fs2 hall hf
    unfold commit_changes
    rw [if_neg h, hs]
    simp

theorem C7_witness :
    (commit_changes ⟨fun g => decide (g ≠ "bad"), ["m\n"], true⟩
      ["x.py"]).staged = ["x.py"] ∧
    commit_changes ⟨fun g => decide (g ≠ "bad"), ["m\n"], true⟩
      ["x.py", "bad", "y.py"] = ⟨false, ["x.py", "bad"], none, false⟩ :=
  ⟨(C7_stage_each_no_rollback ⟨fun g => decide (g ≠ "bad"), ["m\n"], true⟩
      ["x.py"] (by decide)).1 (by decide),
   (C7_stage_each_no_rollback ⟨fun g => decide (g ≠ "bad"), ["m\n"], true⟩
      ["x.py", "bad", "y.py"] (by decide)).2 ["x.py"] "bad" ["y.py"] rfl
      (by decide) (by decide)⟩

/-- C4 counterexample: with one modified and one untracked file, the
selection input consisting of the literal word all does not return the
concatenation of the two lists; it falls into the integer-parsing
branch, where int raises ValueError and the selection becomes empty. -/
theorem C4_counterexample :
    choose_files_to_add ["m.py"] ["u.py"] "all" = [] ∧
    choose_files_to_add ["m.py"] ["u.py"] "all" ≠ ["m.py"] ++ ["u.py"] := by
  exact ⟨by decide, by decide⟩

/-- C4 amended: the select-everything token is the single character a
(the prompt offers a for all), compared after stripping and lowering
the raw input. For every input whose stripped lowered form is a,
choose_files_to_add returns exactly the modified list followed by the
untracked list, and no path that is only in the staged list is
included. -/
theorem C4_select_all_token (modified untracked staged : List String)
    (raw : String) (h : pyLower (pyStrip raw) = "a") :
    choose_files_to_add modified untracked raw = modified ++ untracked ∧
    ∀ p ∈ staged, p ∉ modified → p ∉ untracked →
      p ∉ choose_files_to_add modified untracked raw := by
  have key : choose_files_to_add modified untracked raw =
      modified ++ untracked := by
    unfold choose_files_to_add
    rw [h]
    by_cases he : modified ++ untracked = []
    · rw [if_pos he, he]
    · rw [if_neg he, if_neg (by decide : ¬ ("a" = "q")), if_pos rfl]
  refine ⟨key, ?_⟩
  intro p _ hm hu
  rw [key]
  simp only [List.mem_append]
  rintro (hc | hc)
  · exact hm hc
  · exact hu hc

theorem C4_witness :
    choose_files_to_add ["m.py"] ["u.py"] " A " = ["m.py"] ++ ["u.py"] ∧
    "s.py" ∉ choose_files_to_add ["m.py"] ["u.py"] " A " :=
  ⟨(C4_select_all_token ["m.py"] ["u.py"] ["s.py"] " A " (by decide)).1,
   (C4_select_all_token ["m.py"] ["u.py"] ["s.py"] " A " (by decide)).2
     "s.py" (List.mem_cons_self "s.py" []) (by decide) (by decide)⟩

/-- C5 counterexample: with files a.py and b.py on offer, the selection
1,x contains the valid token 1 and the non-numeric token x; the claim
says x is dropped and 1 kept, giving the first file, but int raises
ValueError on x inside the comprehension, so the whole selection comes
back empty. -/
theorem C5_counterexample :
    choose_files_to_add ["a.py", "b.py"] [] "1,x" = [] ∧
    choose_files_to_add ["a.py", "b.py"] [] "1,x" ≠ ["a.py"] := by
  exact ⟨by decide, by decide⟩

/-- C5 amended: when every comma-separated token parses as an integer,
each out-of-range index is silently dropped while each in-range index
selects its file (the selection is the in-range indices mapped to their
files); a selection containing any non-numeric token makes the whole
file set empty, not just that token; and on the empty file set
commit_changes returns failure having staged nothing and committed
nothing. -/
theorem C5_invalid_selection (modified untracked : List String)
    (raw : String) (hne : modified ++ untracked ≠ [])
    (hq : pyLower (pyStrip raw) ≠ "q")
    (ha : pyLower (pyStrip raw) ≠ "a") :
    (∀ idxs, parse_selection (pyLower (pyStrip raw)) = some idxs →
      choose_files_to_add modified untracked raw =
        ((idxs.filter (fun i =>
          decide (0 ≤ i ∧ i < ((modified ++ untracked).length : Int)))).filterMap
          (fun i => (modified ++ untracked).get? i.toNat))) ∧
    (parse_selection (pyLower (pyStrip raw)) = none →
      choose_files_to_add modified untracked raw = []) ∧
    (∀ env : CommitEnv, commit_changes env [] = ⟨false, [], none, false⟩) := by
  refine ⟨?_, ?_, fun env => rfl⟩
  · intro idxs hp
    unfold choose_files_to_add
    rw [if_neg hne, if_neg hq, if_neg ha, hp]
    exact filterMap_ite_guard
      (fun i => 0 ≤ i ∧ i < ((modified ++ untracked).length : Int))
      (fun i => (modified ++ untracked).get? i.toNat) idxs
  · intro hp
    unfold choose_files_to_add
    rw [if_neg hne, if_neg hq, if_neg ha, hp]

theorem C5_witness :
    choose_files_to_add ["a.py", "b.py"] [] "3,1" =
      (([2, 0].filter (fun i =>
        decide (0 ≤ i ∧ i < ((["a.py", "b.py"] ++ []).length : Int)))).filterMap
        (fun i => (["a.py", "b.py"] ++ ([] : List String)).get? i.toNat)) ∧
    choose_files_to_add ["a.py"] [] "x" = [] ∧
    commit_changes ⟨fun g => decide (g ≠ ""), ["m\n"], true⟩ [] =
      ⟨false, [], none, false⟩ :=
  ⟨(C5_invalid_selection ["a.py", "b.py"] [] "3,1" (by decide) (by decide)
      (by decide)).1 [2, 0] (by decide),
   (C5_invalid_selection ["a.py"] [] "x" (by decide) (by decide)
      (by decide)).2.1 (by decide),
   (C5_invalid_selection ["a.py"] [] "x" (by decide) (by decide)
      (by decide)).2.2 ⟨fun g => decide (g ≠ ""), ["m\n"], true⟩⟩
